import Mathlib

/-!
Shallow embedding of the core of the etcd-backup-restore sidecar:
the snapshotter (pkg/snapshot/snapshotter/snapshotter.go) and the
initializer (pkg/initializer/initializer.go).

Machine integers (Go int64) are modelled as `Int`; byte buffers as
`List Nat`; wall-clock times and durations as `Rat` (hours for
schedule arithmetic, nanoseconds for snapshot periods, as noted per
field).  Calls into packages outside the two embedded files (etcd
client, snap store, compressor, Kubernetes) are modelled as explicit
environment records carrying each call's outcome, so every function of
the embedding is a pure, executable function of its inputs.
-/

namespace EtcdBackupRestore

/-- Snapshot kind `brtypes.SnapshotKindFull`. -/
def SnapshotKindFull : String := "Full"

/-- Snapshot kind `brtypes.SnapshotKindDelta` (object-name kind "Incr"). -/
def SnapshotKindDelta : String := "Incr"

/-- Descriptor of one stored snapshot artifact (`brtypes.Snapshot`),
restricted to the fields the embedded code reads or writes.
`createdOn` is wall-clock time measured in hours (as a rational). -/
structure Snapshot where
  kind : String
  startRevision : Int
  lastRevision : Int
  createdOn : Rat
  isFinal : Bool
  compressionSuffix : String
deriving Repr, DecidableEq

/-- Modelled from the spec: `snapstore.NewSnapshot` (package
`pkg/snapstore`, not under src/) builds a snapshot descriptor for the
given kind, start and last revisions, compression suffix and final
flag; its creation time is `time.Now()`, passed here explicitly as
`now`. -/
def NewSnapshot (kind : String) (startRevision lastRevision : Int)
    (compressionSuffix : String) (isFinal : Bool) (now : Rat) : Snapshot :=
  { kind := kind, startRevision := startRevision, lastRevision := lastRevision,
    createdOn := now, isFinal := isFinal, compressionSuffix := compressionSuffix }

/-- `brtypes.SnapshotterState`. -/
inductive SnapshotterState where
  | Active
  | Inactive
deriving Repr, DecidableEq

/-- Errors raised by the snapshotter.  `etcdError` stands for
`errors.EtcdError` (fatal KV error); `other` stands for a plain
`fmt.Errorf` error (including transient store errors). -/
inductive SnapErr where
  | etcdError (msg : String)
  | other (msg : String)
deriving Repr, DecidableEq

/-- Modelled from the spec: `brtypes.DeltaSnapshotIntervalThreshold`
(package `pkg/types`, not under src/) is one second, in nanoseconds;
periods below it disable delta snapshotting. -/
def DeltaSnapshotIntervalThreshold : Int := 1000000000

/-- The nanoseconds of Go's `time.Second`. -/
def oneSecondNanos : Int := 1000000000

/-- The mutable state of `Snapshotter` that the embedded functions
read or write.  `events` is the in-memory event buffer (bytes);
`watchRevision` records the revision an etcd watch is currently
applied from (`none` when no watch is open); times are in hours,
`deltaSnapshotPeriodNanos` in nanoseconds. -/
structure Snapshotter where
  PrevSnapshot : Snapshot
  PrevFullSnapshot : Option Snapshot
  PrevDeltaSnapshots : List Snapshot
  events : List Nat
  lastEventRevision : Int
  SsrState : SnapshotterState
  PrevFullSnapshotSucceeded : Bool
  lastSecretModifiedTime : Rat
  compressionEnabled : Bool
  deltaSnapshotPeriodNanos : Int
  deltaSnapshotMemoryLimit : Nat
  watchRevision : Option Int
deriving Repr, DecidableEq

/-- `Snapshotter.cleanupInMemoryEvents`: empties the event buffer and
resets `lastEventRevision` to -1. -/
def cleanupInMemoryEvents (ssr : Snapshotter) : Snapshotter :=
  { ssr with events := [], lastEventRevision := -1 }

/-- `Snapshotter.hasSnapStoreSecretUpdated`: compares the snapstore
credential file's modification time (the outcome of
`snapstore.GetSnapstoreSecretModifiedTime`, supplied as `newTime`)
with the last observed one; on a newer time, records it and reports
`true`. -/
def hasSnapStoreSecretUpdated (ssr : Snapshotter) (newTime : Except String Rat) :
    Except SnapErr (Bool × Snapshotter) :=
  match newTime with
  | .error e => .error (.other ("error checking the modification time of the access credentials  " ++ e))
  | .ok t =>
    if t > ssr.lastSecretModifiedTime then
      .ok (true, { ssr with lastSecretModifiedTime := t })
    else
      .ok (false, ssr)

/-- The message text carried by a `SnapErr`, used where the Go code
wraps one error inside another with `fmt.Errorf("... %v", err)`. -/
def SnapErr.message : SnapErr → String
  | .etcdError m => m
  | .other m => m

/-- Outcomes of the external calls `TakeDeltaSnapshot` performs:
credential mtime probe, snap-store rebuild, compression-suffix lookup,
streaming compression, and `SnapStore.Save`; `now` is `time.Now()`
in hours. -/
structure DeltaEnv where
  newSecretModifiedTime : Except String Rat
  getSnapstore : Except String Unit
  compressionSuffix : Except String String
  compress : List Nat → Except String (List Nat)
  save : List Nat → Except String Unit
  now : Rat

/-- What one call of `TakeDeltaSnapshot` returned and did: the
returned snapshot and error, the snapshotter state afterwards, the
byte payload handed to the compress-then-save pipeline (`none` when
the call failed or skipped before reaching it), and the bytes actually
handed to `SnapStore.Save`. -/
structure DeltaOutcome where
  snap : Option Snapshot
  err : Option SnapErr
  ssr : Snapshotter
  payload : Option (List Nat)
  savedBytes : Option (List Nat)
deriving Repr, DecidableEq

/-- The body of `Snapshotter.TakeDeltaSnapshot` (snapshotter.go):
skip on an empty buffer; append the closing bracket `']'` (byte 93);
check credential rotation; build the delta `Snapshot` with
`StartRevision = PrevSnapshot.LastRevision+1` and
`LastRevision = lastEventRevision`; append the SHA-256 digest
(`hash.Sum(ssr.events)` appends the digest of the written bytes to
its argument, modelled by the abstract `sha256`); compress when
enabled; save; on success append to `PrevDeltaSnapshots` and set
`PrevSnapshot`.  The deferred `cleanupInMemoryEvents` is applied by
the wrapper `TakeDeltaSnapshot`. -/
def TakeDeltaSnapshotCore (sha256 : List Nat → List Nat)
    (ssr : Snapshotter) (env : DeltaEnv) : DeltaOutcome :=
  if ssr.events.length = 0 then
    { snap := none, err := none, ssr := ssr, payload := none, savedBytes := none }
  else
    let ssr := { ssr with events := ssr.events ++ [93] }
    match hasSnapStoreSecretUpdated ssr env.newSecretModifiedTime with
    | .error e =>
      { snap := none, err := some (.other ("error checking if the credentials were updated " ++ e.message)),
        ssr := ssr, payload := none, savedBytes := none }
    | .ok (hasSecretUpdated, ssr) =>
      match (if hasSecretUpdated then env.getSnapstore else .ok ()) with
      | .error e =>
        { snap := none, err := some (.other ("failed to create snapstore from configured storage provider: " ++ e)),
          ssr := ssr, payload := none, savedBytes := none }
      | .ok _ =>
        match env.compressionSuffix with
        | .error e =>
          { snap := none, err := some (.other ("failed to get compressionSuffix: " ++ e)),
            ssr := ssr, payload := none, savedBytes := none }
        | .ok compressionSuffix =>
          let snap := NewSnapshot SnapshotKindDelta (ssr.PrevSnapshot.lastRevision + 1)
            ssr.lastEventRevision compressionSuffix false env.now
          let ssr := { ssr with events := ssr.events ++ sha256 ssr.events }
          let payload := ssr.events
          match (if ssr.compressionEnabled then env.compress payload else .ok payload) with
          | .error e =>
            { snap := none, err := some (.other ("unable to compress delta snapshot: " ++ e)),
              ssr := ssr, payload := some payload, savedBytes := none }
          | .ok toSave =>
            match env.save toSave with
            | .error e =>
              { snap := none, err := some (.other e), ssr := ssr,
                payload := some payload, savedBytes := some toSave }
            | .ok _ =>
              let ssr := { ssr with PrevSnapshot := snap,
                                    PrevDeltaSnapshots := ssr.PrevDeltaSnapshots ++ [snap] }
              { snap := some snap, err := none, ssr := ssr,
                payload := some payload, savedBytes := some toSave }

/-- `Snapshotter.TakeDeltaSnapshot` including its
`defer ssr.cleanupInMemoryEvents()`: every return path leaves the
event buffer empty and `lastEventRevision = -1`. -/
def TakeDeltaSnapshot (sha256 : List Nat → List Nat)
    (ssr : Snapshotter) (env : DeltaEnv) : DeltaOutcome :=
  let o := TakeDeltaSnapshotCore sha256 ssr env
  { o with ssr := cleanupInMemoryEvents o.ssr }

/-- One etcd mutation delivered on the watch channel:
`ev.Kv.ModRevision` plus the bytes `json.Marshal(newEvent(ev))`
produces for it (`clientv3.Event` and `encoding/json` are external;
marshalling of these event structs never fails, so the serialized
bytes are carried as data). -/
structure WatchEvent where
  modRevision : Int
  jsonBytes : List Nat
deriving Repr, DecidableEq

/-- A `clientv3.WatchResponse`: `wr.Err()` and `wr.Events`. -/
structure WatchResponse where
  err : Option String
  events : List WatchEvent
deriving Repr, DecidableEq

/-- One iteration of the event loop of
`Snapshotter.handleDeltaWatchEvents`: prefix with `'['` (byte 91) on
an empty buffer, `','` (byte 44) otherwise, append the marshalled
event, and record its `ModRevision` in `lastEventRevision`. -/
def aggregateEvent (ssr : Snapshotter) (ev : WatchEvent) : Snapshotter :=
  let events := if ssr.events.length = 0 then ssr.events ++ [91] else ssr.events ++ [44]
  { ssr with events := events ++ ev.jsonBytes, lastEventRevision := ev.modRevision }

/-- The whole event loop of `Snapshotter.handleDeltaWatchEvents`. -/
def aggregateEvents (ssr : Snapshotter) (evs : List WatchEvent) : Snapshotter :=
  evs.foldl aggregateEvent ssr

/-- `Snapshotter.takeDeltaSnapshotAndResetTimer`: takes the delta
snapshot and re-arms the delta timer (timers carry no modelled
state). -/
def takeDeltaSnapshotAndResetTimer (sha256 : List Nat → List Nat)
    (ssr : Snapshotter) (env : DeltaEnv) : DeltaOutcome :=
  TakeDeltaSnapshot sha256 ssr env

/-- `Snapshotter.handleDeltaWatchEvents`: fail on a watch-response
error; otherwise aggregate all delivered events into the buffer and,
when the buffer size reaches `DeltaSnapshotMemoryLimit`, flush it via
`takeDeltaSnapshotAndResetTimer`. -/
def handleDeltaWatchEvents (sha256 : List Nat → List Nat)
    (ssr : Snapshotter) (wr : WatchResponse) (env : DeltaEnv) :
    Option SnapErr × Snapshotter :=
  match wr.err with
  | some e => (some (.other e), ssr)
  | none =>
    let ssr := aggregateEvents ssr wr.events
    if ssr.deltaSnapshotMemoryLimit ≤ ssr.events.length then
      let o := takeDeltaSnapshotAndResetTimer sha256 ssr env
      (o.err, o.ssr)
    else
      (none, ssr)

/-- Outcomes of the external calls `takeFullSnapshot` performs, in
source order: credential mtime probe, snap-store rebuild, KV client
creation, latest-revision `Get`, compression-suffix lookup,
maintenance-client creation, `etcdutil.TakeAndSaveFullSnapshot`
(a function of the `lastRevision` and `isFinal` arguments the code
passes it), watch-client creation, and `schedule.Next(now)` for
`resetFullSnapshotTimer` (`none` models the zero time). -/
structure FullEnv where
  newSecretModifiedTime : Except String Rat
  getSnapstore : Except String Unit
  newKV : Except String Unit
  revision : Except String Int
  compressionSuffix : Except String String
  newMaintenance : Except String Unit
  takeAndSave : Int → Bool → Except SnapErr Snapshot
  newWatcher : Except String Unit
  nextSchedule : Option Rat

/-- What one call of `takeFullSnapshot` returned and did: the returned
snapshot and error, the snapshotter state afterwards, and the list of
snapshot objects saved to the snap store during the call. -/
structure FullOutcome where
  snap : Option Snapshot
  err : Option SnapErr
  ssr : Snapshotter
  saved : List Snapshot
deriving Repr, DecidableEq

/-- The tail of `Snapshotter.takeFullSnapshot` after the snapshot was
taken or skipped: return without a watch when the delta period is
below one second, otherwise create the watch client and apply a watch
from `PrevSnapshot.LastRevision+1`; either way the call returns
`ssr.PrevSnapshot`. -/
def applyWatchAfterFullSnapshot (ssr : Snapshotter) (saved : List Snapshot)
    (env : FullEnv) : FullOutcome :=
  if ssr.deltaSnapshotPeriodNanos < oneSecondNanos then
    { snap := some ssr.PrevSnapshot, err := none, ssr := ssr, saved := saved }
  else
    match env.newWatcher with
    | .error e =>
      { snap := none, err := some (.etcdError ("failed to create etcd watch client for snapshotter: " ++ e)),
        ssr := ssr, saved := saved }
    | .ok _ =>
      { snap := some ssr.PrevSnapshot, err := none,
        ssr := { ssr with watchRevision := some (ssr.PrevSnapshot.lastRevision + 1) },
        saved := saved }

/-- The body of `Snapshotter.takeFullSnapshot` (snapshotter.go): close
the previous watch, check credential rotation, read the latest etcd
revision; skip when `isFinal` and the previous snapshot is a Final
Full at that same revision; otherwise stream the full snapshot to the
store via `etcdutil.TakeAndSaveFullSnapshot` and on success set
`PrevSnapshot`/`PrevFullSnapshot` and clear `PrevDeltaSnapshots`;
finally re-apply the watch.  The deferred `cleanupInMemoryEvents` is
applied by the wrapper `takeFullSnapshot`. -/
def takeFullSnapshotCore (isFinal : Bool) (ssr : Snapshotter) (env : FullEnv) : FullOutcome :=
  let ssr := { ssr with watchRevision := none }
  match hasSnapStoreSecretUpdated ssr env.newSecretModifiedTime with
  | .error e =>
    { snap := none, err := some (.other ("error checking if the credentials were updated " ++ e.message)),
      ssr := ssr, saved := [] }
  | .ok (hasSecretUpdated, ssr) =>
    match (if hasSecretUpdated then env.getSnapstore else .ok ()) with
    | .error e =>
      { snap := none, err := some (.other ("failed to create snapstore from configured storage provider: " ++ e)),
        ssr := ssr, saved := [] }
    | .ok _ =>
      match env.newKV with
      | .error e =>
        { snap := none, err := some (.etcdError ("failed to create etcd KV client: " ++ e)),
          ssr := ssr, saved := [] }
      | .ok _ =>
        match env.revision with
        | .error e =>
          { snap := none, err := some (.etcdError ("failed to get etcd latest revision: " ++ e)),
            ssr := ssr, saved := [] }
        | .ok lastRevision =>
          if isFinal = true ∧ ssr.PrevSnapshot.isFinal = true ∧
              ssr.PrevSnapshot.kind = SnapshotKindFull ∧
              ssr.PrevSnapshot.lastRevision = lastRevision then
            applyWatchAfterFullSnapshot ssr [] env
          else
            match env.compressionSuffix with
            | .error e =>
              { snap := none, err := some (.other ("failed to get compressionSuffix: " ++ e)),
                ssr := ssr, saved := [] }
            | .ok _ =>
              match env.newMaintenance with
              | .error _ =>
                { snap := none, err := some (.other "failed to build etcd maintenance client"),
                  ssr := ssr, saved := [] }
              | .ok _ =>
                match env.takeAndSave lastRevision isFinal with
                | .error e => { snap := none, err := some e, ssr := ssr, saved := [] }
                | .ok s =>
                  let ssr := { ssr with PrevSnapshot := s, PrevFullSnapshot := some s,
                                        PrevDeltaSnapshots := [] }
                  applyWatchAfterFullSnapshot ssr [s] env

/-- `Snapshotter.takeFullSnapshot` including its
`defer ssr.cleanupInMemoryEvents()`. -/
def takeFullSnapshot (isFinal : Bool) (ssr : Snapshotter) (env : FullEnv) : FullOutcome :=
  let o := takeFullSnapshotCore isFinal ssr env
  { o with ssr := cleanupInMemoryEvents o.ssr }

/-- `Snapshotter.resetFullSnapshotTimer`: fails when
`schedule.Next(now)` is the zero time, otherwise re-arms the full
snapshot timer. -/
def resetFullSnapshotTimer (env : FullEnv) : Option SnapErr :=
  match env.nextSchedule with
  | none => some (.other "error in full snapshot schedule")
  | some _ => none

/-- `Snapshotter.TakeFullSnapshotAndResetTimer`: on a failed
`takeFullSnapshot` return `(nil, err)`; on success return the snapshot
together with any error of `resetFullSnapshotTimer`. -/
def TakeFullSnapshotAndResetTimer (isFinal : Bool) (ssr : Snapshotter)
    (env : FullEnv) : FullOutcome :=
  let o := takeFullSnapshot isFinal ssr env
  match o.err with
  | some _ => { o with snap := none }
  | none => { o with err := resetFullSnapshotTimer env }

/-- What an external trigger call observed: the returned snapshot and
error, and how many requests it sent on its request channel. -/
structure TriggerOutcome where
  snapshot : Option Snapshot
  err : Option String
  sentRequests : Nat
deriving Repr, DecidableEq

/-- `Snapshotter.TriggerFullSnapshot`: rejected with
"snapshotter is not active" when the state is not Active; otherwise a
request is sent on `fullSnapshotReqCh` and the acknowledgement `ack`
read from `fullSnapshotAckCh` is returned. -/
def TriggerFullSnapshot (ssr : Snapshotter) (_isFinal : Bool)
    (ack : Option Snapshot × Option String) : TriggerOutcome :=
  if ssr.SsrState ≠ SnapshotterState.Active then
    { snapshot := none, err := some "snapshotter is not active", sentRequests := 0 }
  else
    { snapshot := ack.1, err := ack.2, sentRequests := 1 }

/-- `Snapshotter.TriggerDeltaSnapshot`: rejected with
"snapshotter is not active" when the state is not Active; rejected
with the disabled-delta error when the configured period is below
`DeltaSnapshotIntervalThreshold`; otherwise a request is sent on
`deltaSnapshotReqCh` and the acknowledgement is returned. -/
def TriggerDeltaSnapshot (ssr : Snapshotter)
    (ack : Option Snapshot × Option String) : TriggerOutcome :=
  if ssr.SsrState ≠ SnapshotterState.Active then
    { snapshot := none, err := some "snapshotter is not active", sentRequests := 0 }
  else if ssr.deltaSnapshotPeriodNanos < DeltaSnapshotIntervalThreshold then
    { snapshot := none, err := some "found delta snapshot interval less than threshold. Delta snapshotting is disabled. ",
      sentRequests := 0 }
  else
    { snapshot := ack.1, err := ack.2, sentRequests := 1 }

/-- One message arriving at `snapshotEventHandler`'s `select`: an
external full/delta trigger, a timer fire, a watch response (or the
watch channel closing), or the stop channel.  Each message carries the
environment of the external calls its handling performs. -/
inductive HandlerMsg where
  | fullReq (isFinal : Bool) (env : FullEnv)
  | deltaReq (env : DeltaEnv)
  | fullTimer (env : FullEnv)
  | deltaTimer (env : DeltaEnv)
  | watch (wr : WatchResponse) (env : DeltaEnv)
  | watchClosed
  | stop

/-- What a run of `snapshotEventHandler` over a message sequence did:
the acknowledgements sent on the two ack channels in order, the error
the loop returned (`none` both on `stop` and while messages remain
pending), and the snapshotter state when it stopped. -/
structure HandlerResult where
  acks : List (Option Snapshot × Option SnapErr)
  err : Option SnapErr
  ssr : Snapshotter
deriving Repr, DecidableEq

/-- `Snapshotter.snapshotEventHandler`, one `select` arm per message,
in source order of the cases: a triggered full snapshot sends its
result on the ack channel and returns the error if any (recording
`PrevFullSnapshotSucceeded`); a triggered delta likewise; a full-timer
fire returns any error; a delta-timer fire takes a delta only when the
period is at least one second; a watch response is handled by
`handleDeltaWatchEvents`, whose error ends the loop; a closed watch
channel ends the loop with an error; `stop` cleans up the in-memory
events and returns nil. -/
def snapshotEventHandler (sha256 : List Nat → List Nat) :
    Snapshotter → List HandlerMsg → HandlerResult
  | ssr, [] => { acks := [], err := none, ssr := ssr }
  | ssr, .fullReq isFinal env :: rest =>
    let o := TakeFullSnapshotAndResetTimer isFinal ssr env
    match o.err with
    | some e =>
      { acks := [(o.snap, some e)], err := some e,
        ssr := { o.ssr with PrevFullSnapshotSucceeded := false } }
    | none =>
      let r := snapshotEventHandler sha256 { o.ssr with PrevFullSnapshotSucceeded := true } rest
      { r with acks := (o.snap, none) :: r.acks }
  | ssr, .deltaReq env :: rest =>
    let o := takeDeltaSnapshotAndResetTimer sha256 ssr env
    match o.err with
    | some e => { acks := [(o.snap, some e)], err := some e, ssr := o.ssr }
    | none =>
      let r := snapshotEventHandler sha256 o.ssr rest
      { r with acks := (o.snap, none) :: r.acks }
  | ssr, .fullTimer env :: rest =>
    let o := TakeFullSnapshotAndResetTimer false ssr env
    match o.err with
    | some e =>
      { acks := [], err := some e,
        ssr := { o.ssr with PrevFullSnapshotSucceeded := false } }
    | none => snapshotEventHandler sha256 { o.ssr with PrevFullSnapshotSucceeded := true } rest
  | ssr, .deltaTimer env :: rest =>
    if oneSecondNanos ≤ ssr.deltaSnapshotPeriodNanos then
      let o := takeDeltaSnapshotAndResetTimer sha256 ssr env
      match o.err with
      | some e => { acks := [], err := some e, ssr := o.ssr }
      | none => snapshotEventHandler sha256 o.ssr rest
    else
      snapshotEventHandler sha256 ssr rest
  | ssr, .watch wr env :: rest =>
    match handleDeltaWatchEvents sha256 ssr wr env with
    | (some e, ssr) => { acks := [], err := some e, ssr := ssr }
    | (none, ssr) => snapshotEventHandler sha256 ssr rest
  | ssr, .watchClosed :: _ =>
    { acks := [], err := some (.other "watch channel closed"), ssr := ssr }
  | ssr, .stop :: _ =>
    { acks := [], err := none, ssr := cleanupInMemoryEvents ssr }

/-- The pieces of snapshotter state and ambient time that the startup
decision `IsFullSnapshotRequiredAtStartup` reads: the previous full
snapshot and its succeeded flag, `time.Now()` (`now`, in hours),
`schedule.Next(now)` (`nextSnapSchedule`, in hours), and the external
`miscellaneous.GetPrevScheduledSnapTime` (package miscellaneous, not
under src/), carried as the function `getPrevScheduledSnapTime` of the
next scheduled time and the time window. -/
structure StartupCtx where
  PrevFullSnapshot : Option Snapshot
  PrevFullSnapshotSucceeded : Bool
  now : Rat
  nextSnapSchedule : Rat
  getPrevScheduledSnapTime : Rat → Rat → Rat

/-- `Snapshotter.WasScheduledFullSnapshotMissed`: the previous
scheduled slot was missed unless `GetPrevScheduledSnapTime` of the
next scheduled time equals the previous full snapshot's creation time
(only reached when a previous full snapshot exists, here `pf`). -/
def WasScheduledFullSnapshotMissed (s : StartupCtx) (pf : Snapshot)
    (timeWindow : Rat) : Bool :=
  if s.getPrevScheduledSnapTime s.nextSnapSchedule timeWindow = pf.createdOn then
    false
  else
    true

/-- `Snapshotter.IsNextFullSnapshotBeyondTimeWindow`: the hours left
until the next scheduled snapshot plus the hours elapsed since the
previous full snapshot exceed the window. -/
def IsNextFullSnapshotBeyondTimeWindow (s : StartupCtx) (pf : Snapshot)
    (timeWindow : Rat) : Bool :=
  decide ((s.nextSnapSchedule - s.now) + (s.now - pf.createdOn) > timeWindow)

/-- `Snapshotter.IsFullSnapshotRequiredAtStartup` (snapshotter.go):
required when no previous full exists, it is final, it is older than
the window, or it did not succeed; otherwise required exactly when the
previous scheduled slot was missed and the next one falls beyond the
window. -/
def IsFullSnapshotRequiredAtStartup (s : StartupCtx) (timeWindow : Rat) : Bool :=
  match s.PrevFullSnapshot with
  | none => true
  | some pf =>
    if pf.isFinal = true ∨ s.now - pf.createdOn > timeWindow ∨
        s.PrevFullSnapshotSucceeded = false then
      true
    else if WasScheduledFullSnapshotMissed s pf timeWindow = false then
      false
    else
      IsNextFullSnapshotBeyondTimeWindow s pf timeWindow

/-- The default full-snapshot time window,
`defaultFullSnapMaxTimeWindow = 24` hours. -/
def defaultFullSnapMaxTimeWindow : Rat := 24

/-- Index of the hours field in a cron schedule (`hour`). -/
def hourField : Nat := 1

/-- Index of the day-of-month field in a cron schedule (`dayOfMonth`). -/
def dayOfMonthField : Nat := 2

/-- Index of the day-of-week field in a cron schedule (`dayOfWeek`). -/
def dayOfWeekField : Nat := 4

/-- Whether a character is white space in the sense of
`unicode.IsSpace` restricted to ASCII (space, tab, newline, vertical
tab, form feed, carriage return). -/
def isSpaceChar (c : Char) : Bool :=
  c = ' ' ∨ c = '\t' ∨ c = '\n' ∨ c = '\r' ∨ c.toNat = 11 ∨ c.toNat = 12

/-- Worker for `fields`: splits a character list around runs of white
space, accumulating the current field reversed. -/
def fieldsGo : List Char → List Char → List String
  | [], acc => if acc = [] then [] else [String.mk acc.reverse]
  | c :: cs, acc =>
    if isSpaceChar c then
      if acc = [] then fieldsGo cs []
      else String.mk acc.reverse :: fieldsGo cs []
    else
      fieldsGo cs (c :: acc)

/-- Go's `strings.Fields`: the list of maximal runs of non-space
characters. -/
def fields (s : String) : List String :=
  fieldsGo s.toList []

/-- Go's `strings.Contains(s, "/")`. -/
def containsSlash (s : String) : Bool :=
  s.toList.any (fun c => c = '/')

/-- `s[strings.Index(s, "/")+1:]`: the part of `s` after the first
`'/'` (the whole string when there is none, which the caller guards
against via `containsSlash`). -/
def afterFirstSlash (s : String) : String :=
  match s.toList.dropWhile (fun c => ¬ c = '/') with
  | [] => s
  | _ :: rest => String.mk rest

/-- The part of `s` after the last `'/'` (a specification-side helper:
the spec sentence behind claim C8 reads the step as the float after
the last slash). -/
def afterLastSlash (s : String) : String :=
  String.mk ((s.toList.reverse.takeWhile (fun c => ¬ c = '/')).reverse)

/-- The natural number denoted by a list of decimal digits. -/
def digitsToNat (ds : List Char) : Nat :=
  ds.foldl (fun n c => n * 10 + (c.toNat - 48)) 0

/-- Whether every character of the list is a decimal digit. -/
def allDigits (ds : List Char) : Bool :=
  ds.all (fun c => c.isDigit)

/-- The optionally signed decimal exponent of a float literal:
`[+-]digits`, at least one digit. -/
def parseDecExp (cs : List Char) : Option Int :=
  match cs with
  | '+' :: r => if r ≠ [] ∧ allDigits r then some ((digitsToNat r : Int)) else none
  | '-' :: r => if r ≠ [] ∧ allDigits r then some (-(digitsToNat r : Int)) else none
  | r => if r ≠ [] ∧ allDigits r then some ((digitsToNat r : Int)) else none

/-- Go's `strconv.ParseFloat` (standard library, external to the
repository), modelled on plain decimal numerals: an optional sign, an
integer part and optional fraction separated by `'.'` with at least
one digit between them, and an optional `e`/`E` exponent.  The exact
value is kept as a rational.  The hexadecimal, `Inf`/`NaN` and
digit-separator forms Go also accepts are omitted; no input in this
development uses them. -/
def parseFloat (s : String) : Option Rat :=
  let cs := s.toList
  let signAndRest : Bool × List Char :=
    match cs with
    | '+' :: r => (false, r)
    | '-' :: r => (true, r)
    | r => (false, r)
  let neg := signAndRest.1
  let body := signAndRest.2
  let mant := body.takeWhile (fun c => ¬ (c = 'e' ∨ c = 'E'))
  let expChars := body.drop mant.length
  let ip := mant.takeWhile (fun c => ¬ c = '.')
  let fpOpt : Option (List Char) :=
    match mant.drop ip.length with
    | [] => some []
    | '.' :: f => some f
    | _ => none
  match fpOpt with
  | none => none
  | some f =>
    if allDigits ip ∧ allDigits f ∧ (ip ≠ [] ∨ f ≠ []) then
      let num : Int := Int.ofNat (digitsToNat ip * 10 ^ f.length + digitsToNat f)
      let base : Rat := mkRat (if neg then -num else num) (10 ^ f.length)
      match expChars with
      | [] => some base
      | _ :: expBody =>
        match parseDecExp expBody with
        | none => none
        | some k =>
          if 0 ≤ k then some (Rat.mul base (mkRat (Int.ofNat (10 ^ k.toNat)) 1))
          else some (Rat.mul base (mkRat 1 (10 ^ (-k).toNat)))
    else
      none

/-- `Snapshotter.GetFullSnapshotMaxTimeWindow` (snapshotter.go):
default 24 for fewer than five fields; 24 × 7 when day-of-week is
restricted; the float after the first `'/'` of the hours field when
day-of-month and day-of-week are both `"*"`, the hours field contains
`'/'` and that float parses; default 24 otherwise. -/
def GetFullSnapshotMaxTimeWindow (fullSnapScheduleSpec : String) : Rat :=
  let schedule := fields fullSnapScheduleSpec
  if schedule.length < 5 then
    defaultFullSnapMaxTimeWindow
  else if schedule.getD dayOfWeekField "" ≠ "*" then
    defaultFullSnapMaxTimeWindow * 7
  else if schedule.getD dayOfMonthField "" = "*" ∧ schedule.getD dayOfWeekField "" = "*" ∧
      containsSlash (schedule.getD hourField "") = true then
    match parseFloat (afterFirstSlash (schedule.getD hourField "")) with
    | some timeWindow => timeWindow
    | none => defaultFullSnapMaxTimeWindow
  else
    defaultFullSnapMaxTimeWindow

/-- Modelled from the spec: the statuses of the data-directory
validator (package `pkg/initializer/validator`, not under src/) that
the initializer discriminates on: Valid, Corrupt, WrongVolumeMounted,
FailToOpenBoltDBError, FailBelowRevisionConsistencyError,
InvalidInMultiNode and Unknown. -/
inductive DataDirStatus where
  | DataDirectoryValid
  | DataDirectoryCorrupt
  | WrongVolumeMounted
  | FailToOpenBoltDBError
  | FailBelowRevisionConsistencyError
  | DataDirStatusInvalidInMultiNode
  | DataDirectoryStatusUnknown
deriving Repr, DecidableEq

/-- The on-disk directories `initializer.go` manipulates: the etcd
data directory and the temporary restore directory `<dataDir>.part`.
`none` means the directory is absent; a present directory carries a
content token. -/
structure FileSystem where
  dataDir : Option Nat
  partDir : Option Nat
deriving Repr, DecidableEq

/-- Outcomes of the external calls of
`EtcdInitializer.restoreCorruptData` and its helpers, in source
order: whether a snapstore provider is configured (the code takes the
empty-snapstore path when the snapstore config is nil or the provider
name is empty), `snapstore.GetSnapstore`,
`miscellaneous.GetLatestFullSnapshotAndDeltaSnapList`, the
`os.RemoveAll` calls on the `.part` directory and the data directory,
`restorer.NewRestorer`, and `Restorer.RestoreAndStopEtcd` (whose
success carries the content restored into the `.part` directory). -/
structure RestoreEnv where
  snapstoreConfigNil : Bool
  providerEmpty : Bool
  getSnapstore : Except String Unit
  getLatest : Except String (Option Snapshot × List Snapshot)
  removePartDir : Except String Unit
  removeDataDir : Except String Unit
  newRestorer : Except String Unit
  restoreAndStopEtcd : Except String Nat

/-- What a restoration attempt returned and did: the `(bool, error)`
pair of `restoreCorruptData` and the file system afterwards. -/
structure RestoreOutcome where
  restored : Bool
  err : Option String
  fs : FileSystem
deriving Repr, DecidableEq

/-- `EtcdInitializer.restoreWithEmptySnapstore`: bootstrap when the
data directory does not exist; otherwise remove it, which counts as
the restoration act for an empty snapstore. -/
def restoreWithEmptySnapstore (env : RestoreEnv) (fs : FileSystem) : RestoreOutcome :=
  match fs.dataDir with
  | none => { restored := false, err := none, fs := fs }
  | some _ =>
    match env.removeDataDir with
    | .error e => { restored := false, err := some ("failed to remove directory with err: " ++ e), fs := fs }
    | .ok _ => { restored := true, err := none, fs := { fs with dataDir := none } }

/-- `EtcdInitializer.removeContents`: remove the data directory, then
rename `<dataDir>.part` onto it.  Returns the error and the file
system reached (the rename can only fail here when the `.part`
directory is absent). -/
def removeContents (env : RestoreEnv) (fs : FileSystem) : Option String × FileSystem :=
  match env.removeDataDir with
  | .error e => (some ("failed to remove directory with err: " ++ e), fs)
  | .ok _ =>
    let fs := { fs with dataDir := none }
    match fs.partDir with
    | none => (some "failed to rename temp restore directory to data directory", fs)
    | some c => (none, { dataDir := some c, partDir := none })

/-- `EtcdInitializer.restoreCorruptData` (initializer.go): with no
provider configured or an empty snapstore, fall back to
`restoreWithEmptySnapstore`; otherwise clear the `.part` directory,
restore base + deltas into it via `RestoreAndStopEtcd`, and only on
success replace the data directory through `removeContents`. -/
def restoreCorruptData (env : RestoreEnv) (fs : FileSystem) : RestoreOutcome :=
  if env.snapstoreConfigNil = true ∨ env.providerEmpty = true then
    restoreWithEmptySnapstore env fs
  else
    match env.getSnapstore with
    | .error e =>
      { restored := false, err := some ("failed to create snapstore from configured storage provider: " ++ e), fs := fs }
    | .ok _ =>
      match env.getLatest with
      | .error e => { restored := false, err := some e, fs := fs }
      | .ok (baseSnap, deltaSnapList) =>
        if baseSnap = none ∧ deltaSnapList = [] then
          restoreWithEmptySnapstore env fs
        else
          match env.removePartDir with
          | .error e =>
            { restored := false, err := some ("failed to delete previous temporary data directory: " ++ e), fs := fs }
          | .ok _ =>
            let fs := { fs with partDir := none }
            match env.newRestorer with
            | .error e => { restored := false, err := some e, fs := fs }
            | .ok _ =>
              match env.restoreAndStopEtcd with
              | .error e =>
                { restored := false, err := some ("failed to restore snapshot: " ++ e), fs := fs }
              | .ok content =>
                let fs := { fs with partDir := some content }
                match removeContents env fs with
                | (some e, fs) =>
                  { restored := false, err := some ("failed to remove corrupt contents with restored snapshot: " ++ e), fs := fs }
                | (none, fs) => { restored := true, err := none, fs := fs }

/-- Outcomes of the remaining external calls of
`EtcdInitializer.Initialize`: the multi-node flag
(`miscellaneous.IsMultiNode`), the Kubernetes client set, the member
heartbeat probe, the scale-up probe, learner addition, member
removal, the validator's verdict, the restoration environment, and
the temporary-snapshot-directory cleanup at the end. -/
structure InitEnv where
  isMultiNode : Bool
  k8sClientSet : Except String Unit
  wasMemberInCluster : Bool
  isClusterScaledUp : Except String Bool
  addLearner : Except String Unit
  removeMember : Except String Unit
  addMemberAsLearner : Except String Unit
  validateStatus : DataDirStatus
  originalClusterSize : Nat
  restoreEnv : RestoreEnv
  tempDir : String
  removeTempDir : Except String Unit
  mkdirTempDir : Except String Unit

/-- How `EtcdInitializer.Initialize` ended: normally, with a returned
error, or by `logger.Fatalf` (process exit). -/
inductive InitResult where
  | ok
  | err (msg : String)
  | fatal (msg : String)
deriving Repr, DecidableEq

/-- `EtcdInitializer.restoreInMultiNode`: remove this member from the
cluster, clear its data directory, and rejoin as a learner. -/
def restoreInMultiNode (env : InitEnv) (fs : FileSystem) : Option String × FileSystem :=
  match env.removeMember with
  | .error e => (some ("unable to remove the member " ++ e), fs)
  | .ok _ =>
    match env.restoreEnv.removeDataDir with
    | .error e => (some ("unable to remove the data-dir " ++ e), fs)
    | .ok _ =>
      let fs := { fs with dataDir := none }
      match env.addMemberAsLearner with
      | .error e => (some ("unable to add the member as learner " ++ e), fs)
      | .ok _ => (none, fs)

/-- The tail of `EtcdInitializer.Initialize`: clean up and recreate
the temporary snapshot directory when a snapstore is configured. -/
def cleanupTempDirPhase (env : InitEnv) (fs : FileSystem) : InitResult × FileSystem :=
  if env.restoreEnv.snapstoreConfigNil = true then
    (.ok, fs)
  else if env.tempDir ≠ "" ∧ env.tempDir ≠ "/tmp" then
    match env.removeTempDir with
    | .error e => (.err ("failed to remove directory with err: " ++ e), fs)
    | .ok _ =>
      match env.mkdirTempDir with
      | .error e => (.err ("failed to create temporary directory: " ++ e), fs)
      | .ok _ => (.ok, fs)
  else
    match env.mkdirTempDir with
    | .error e => (.err ("failed to create temporary directory: " ++ e), fs)
    | .ok _ => (.ok, fs)

/-- The part of `EtcdInitializer.Initialize` from the validator call
onwards: reject the four hard validator statuses; for every other
non-valid status restore, either through `restoreInMultiNode` (invalid
in multi-node, or a multi-node cluster with a corrupt directory or a
present heartbeat) or through `restoreCorruptData`; then clean the
temporary directory. -/
def initValidatePhase (env : InitEnv) (fs : FileSystem)
    (memberHeartbeatPresent : Bool) : InitResult × FileSystem :=
  match env.validateStatus with
  | .WrongVolumeMounted => (.err "wont initialize ETCD because wrong ETCD volume is mounted", fs)
  | .FailToOpenBoltDBError => (.err "failed to initialize since another process still holds the file lock", fs)
  | .DataDirectoryStatusUnknown => (.err "error while initializing", fs)
  | .FailBelowRevisionConsistencyError => (.err "failed to initialize since fail below revision check failed", fs)
  | status =>
    if status ≠ DataDirStatus.DataDirectoryValid then
      if status = DataDirStatus.DataDirStatusInvalidInMultiNode ∨
          (1 < env.originalClusterSize ∧ status = DataDirStatus.DataDirectoryCorrupt) ∨
          (1 < env.originalClusterSize ∧ memberHeartbeatPresent = true) then
        match restoreInMultiNode env fs with
        | (some e, fs) => (.err e, fs)
        | (none, fs) => cleanupTempDirPhase env fs
      else
        let r := restoreCorruptData env.restoreEnv fs
        match r.err with
        | some e => (.err ("error while restoring corrupt data: " ++ e), r.fs)
        | none => cleanupTempDirPhase env r.fs
    else
      cleanupTempDirPhase env fs

/-- `EtcdInitializer.Initialize` (initializer.go): in a multi-node
cluster first run the heartbeat and scale-up checks (returning after
adding a learner on a detected scale-up); then validate the data
directory and act on the verdict. -/
def Initialize (env : InitEnv) (fs : FileSystem) : InitResult × FileSystem :=
  if env.isMultiNode = true then
    match env.k8sClientSet with
    | .error e => (.fatal ("failed to create clientset, " ++ e), fs)
    | .ok _ =>
      if env.wasMemberInCluster = true then
        initValidatePhase env fs true
      else
        match env.isClusterScaledUp with
        | .error _ => initValidatePhase env fs false
        | .ok true =>
          match env.addLearner with
          | .error e => (.fatal ("unable to add a learner in a cluster: " ++ e), fs)
          | .ok _ => (.ok, fs)
        | .ok false => initValidatePhase env fs false
  else
    initValidatePhase env fs false

/-! ### Helper lemmas -/

/-- A concrete snapshot used by the witness instantiations. -/
def sampleSnapshot : Snapshot :=
  { kind := SnapshotKindFull, startRevision := 0, lastRevision := 5,
    createdOn := 0, isFinal := false, compressionSuffix := "" }

/-- A concrete snapshotter state used by the witness instantiations. -/
def sampleSnapshotter : Snapshotter :=
  { PrevSnapshot := sampleSnapshot, PrevFullSnapshot := some sampleSnapshot,
    PrevDeltaSnapshots := [], events := [], lastEventRevision := -1,
    SsrState := SnapshotterState.Inactive, PrevFullSnapshotSucceeded := true,
    lastSecretModifiedTime := 0, compressionEnabled := false,
    deltaSnapshotPeriodNanos := 0, deltaSnapshotMemoryLimit := 1000000,
    watchRevision := none }

/-- A delta environment in which every external call succeeds. -/
def sampleDeltaEnv : DeltaEnv :=
  { newSecretModifiedTime := .ok 0, getSnapstore := .ok (),
    compressionSuffix := .ok "", compress := fun b => .ok b,
    save := fun _ => .ok (), now := 0 }

/-- A stand-in for the SHA-256 digest function in witness
instantiations: a constant 32-byte digest. -/
def sampleSha256 : List Nat → List Nat := fun _ => List.replicate 32 0

theorem hasSnapStoreSecretUpdated_ok_fields (ssr : Snapshotter)
    (t : Except String Rat) (b : Bool) (ssr' : Snapshotter)
    (h : hasSnapStoreSecretUpdated ssr t = .ok (b, ssr')) :
    ssr'.PrevSnapshot = ssr.PrevSnapshot ∧
    ssr'.PrevFullSnapshot = ssr.PrevFullSnapshot ∧
    ssr'.PrevDeltaSnapshots = ssr.PrevDeltaSnapshots ∧
    ssr'.events = ssr.events ∧
    ssr'.lastEventRevision = ssr.lastEventRevision ∧
    ssr'.compressionEnabled = ssr.compressionEnabled ∧
    ssr'.deltaSnapshotPeriodNanos = ssr.deltaSnapshotPeriodNanos ∧
    ssr'.deltaSnapshotMemoryLimit = ssr.deltaSnapshotMemoryLimit := by
  unfold hasSnapStoreSecretUpdated at h
  rcases t with e | t
  · exact absurd h (by simp)
  · simp only [] at h
    split at h <;> (injection h with h; injection h with h1 h2; subst h2; simp)

theorem aggregateEvents_lastEventRevision (evs : List WatchEvent) (ssr : Snapshotter) :
    (aggregateEvents ssr evs).lastEventRevision =
      ((evs.getLast?).map WatchEvent.modRevision).getD ssr.lastEventRevision := by
  induction evs generalizing ssr with
  | nil => rfl
  | cons e rest ih =>
    cases rest with
    | nil => simp [aggregateEvents, aggregateEvent]
    | cons e' rest' =>
      have := ih (aggregateEvent ssr e)
      simp only [aggregateEvents] at this ⊢
      simp only [List.foldl_cons] at this ⊢
      rw [this]
      simp [List.getLast?]

theorem aggregateEvents_PrevSnapshot (evs : List WatchEvent) (ssr : Snapshotter) :
    (aggregateEvents ssr evs).PrevSnapshot = ssr.PrevSnapshot := by
  induction evs generalizing ssr with
  | nil => rfl
  | cons e rest ih =>
    simp only [aggregateEvents, List.foldl_cons] at ih ⊢
    rw [ih]
    simp [aggregateEvent]

theorem TakeDeltaSnapshot_snap_fields (sha256 : List Nat → List Nat)
    (ssr : Snapshotter) (env : DeltaEnv) (snap : Snapshot)
    (h : (TakeDeltaSnapshot sha256 ssr env).snap = some snap) :
    snap.startRevision = ssr.PrevSnapshot.lastRevision + 1 ∧
    snap.lastRevision = ssr.lastEventRevision := by
  have h' : (TakeDeltaSnapshotCore sha256 ssr env).snap = some snap := h
  unfold TakeDeltaSnapshotCore at h'
  by_cases h0 : ssr.events.length = 0
  · simp [h0] at h'
  · simp only [h0, if_false] at h'
    rcases hh : hasSnapStoreSecretUpdated { ssr with events := ssr.events ++ [93] }
        env.newSecretModifiedTime with e | ⟨b, ssr2⟩
    · rw [hh] at h'; simp at h'
    · rw [hh] at h'
      dsimp only at h'
      obtain ⟨hprev, -, -, -, hlast, -, -, -⟩ :=
        hasSnapStoreSecretUpdated_ok_fields _ _ _ _ hh
      rcases hg : (if b = true then env.getSnapstore else Except.ok ()) with e | u
      · rw [hg] at h'; simp at h'
      · rw [hg] at h'
        dsimp only at h'
        rcases hc : env.compressionSuffix with e | suffix
        · rw [hc] at h'; simp at h'
        · rw [hc] at h'
          dsimp only at h'
          rcases hz : (if ssr2.compressionEnabled = true then
              env.compress (ssr2.events ++ sha256 ssr2.events)
            else Except.ok (ssr2.events ++ sha256 ssr2.events)) with e | toSave
          · rw [hz] at h'; simp at h'
          · rw [hz] at h'
            dsimp only at h'
            rcases hs : env.save toSave with e | u2
            · rw [hs] at h'; simp at h'
            · rw [hs] at h'
              simp only [Option.some.injEq] at h'
              subst h'
              simp [NewSnapshot, hprev, hlast]

/-- A concrete watch response used by the witness instantiations. -/
def sampleWatchResponse : WatchResponse :=
  { err := none, events := [{ modRevision := 6, jsonBytes := [65] }] }

/-! ### C1 -/

/-- C1: with a non-empty batch of watch events and the buffer below
the memory limit, `handleDeltaWatchEvents` leaves the aggregated
buffer with `lastEventRevision` equal to the last appended event's
`ModRevision`, and the delta snapshot `TakeDeltaSnapshot` then builds
has `StartRevision = PrevSnapshot.LastRevision + 1` and
`LastRevision = lastEventRevision`; hence `LastRevision ≥
StartRevision` whenever every buffered event's `ModRevision` exceeds
the previous snapshot's `LastRevision`. -/
theorem delta_snapshot_revisions
    (sha256 : List Nat → List Nat) (ssr : Snapshotter) (wr : WatchResponse)
    (denv : DeltaEnv)
    (hok : wr.err = none) (hne : wr.events ≠ [])
    (hlimit : (aggregateEvents ssr wr.events).events.length <
              (aggregateEvents ssr wr.events).deltaSnapshotMemoryLimit) :
    handleDeltaWatchEvents sha256 ssr wr denv = (none, aggregateEvents ssr wr.events) ∧
    ∀ e, wr.events.getLast? = some e →
      (aggregateEvents ssr wr.events).lastEventRevision = e.modRevision ∧
      ∀ env snap,
        (TakeDeltaSnapshot sha256 (aggregateEvents ssr wr.events) env).snap = some snap →
          snap.startRevision = ssr.PrevSnapshot.lastRevision + 1 ∧
          snap.lastRevision = e.modRevision ∧
          ((∀ ev ∈ wr.events, ssr.PrevSnapshot.lastRevision < ev.modRevision) →
            snap.startRevision ≤ snap.lastRevision) := by
  constructor
  · unfold handleDeltaWatchEvents
    rw [hok]
    simp only [Nat.not_le.mpr hlimit, if_false]
  · intro e he
    have hrev : (aggregateEvents ssr wr.events).lastEventRevision = e.modRevision := by
      rw [aggregateEvents_lastEventRevision, he]
      rfl
    refine ⟨hrev, ?_⟩
    intro env snap hsnap
    obtain ⟨h1, h2⟩ := TakeDeltaSnapshot_snap_fields sha256 _ env snap hsnap
    rw [aggregateEvents_PrevSnapshot] at h1
    rw [hrev] at h2
    refine ⟨h1, h2, ?_⟩
    intro hmono
    have hmem : e ∈ wr.events := by
      obtain ⟨hne', heq⟩ := List.mem_getLast?_eq_getLast (l := wr.events) (x := e) he
      rw [heq]
      exact List.getLast_mem hne'
    have := hmono e hmem
    omega

/-- Witness for C1 at a one-event watch response over the sample
snapshotter (whose previous snapshot has `LastRevision = 5`). -/
theorem delta_snapshot_revisions_witness :
    (aggregateEvents sampleSnapshotter sampleWatchResponse.events).lastEventRevision = 6 ∧
    (NewSnapshot SnapshotKindDelta 6 6 "" false 0).startRevision =
      sampleSnapshotter.PrevSnapshot.lastRevision + 1 ∧
    (NewSnapshot SnapshotKindDelta 6 6 "" false 0).startRevision ≤
      (NewSnapshot SnapshotKindDelta 6 6 "" false 0).lastRevision := by
  have h := delta_snapshot_revisions sampleSha256 sampleSnapshotter sampleWatchResponse
    sampleDeltaEnv rfl (by decide) (by decide)
  have h2 := h.2 { modRevision := 6, jsonBytes := [65] } (by decide)
  have h3 := h2.2 sampleDeltaEnv (NewSnapshot SnapshotKindDelta 6 6 "" false 0) (by decide)
  exact ⟨h2.1, h3.1, h3.2.2 (by decide)⟩

/-! ### C2 -/

/-- C2: for a non-empty event buffer `B`, once `TakeDeltaSnapshot`
passes the credential and compression-suffix steps, the payload handed
to the (optional) compressor and then to `SnapStore.Save` is exactly
`B ++ "]" ++ SHA256(B ++ "]")`: the closing bracket (byte 93) is
appended first and the 32-byte digest of the bracket-terminated buffer
is appended as raw bytes, making the payload 33 bytes longer than
`B`. -/
theorem delta_payload_sha256
    (sha256 : List Nat → List Nat) (ssr : Snapshotter) (env : DeltaEnv)
    (hne : ssr.events ≠ [])
    (hsec : ∃ t, env.newSecretModifiedTime = .ok t)
    (hstore : env.getSnapstore = .ok ())
    (hsuf : ∃ suffix, env.compressionSuffix = .ok suffix)
    (h32 : ∀ b, (sha256 b).length = 32) :
    (TakeDeltaSnapshot sha256 ssr env).payload =
      some ((ssr.events ++ [93]) ++ sha256 (ssr.events ++ [93])) ∧
    ((ssr.events ++ [93]) ++ sha256 (ssr.events ++ [93])).length =
      ssr.events.length + 1 + 32 := by
  obtain ⟨t, hsec⟩ := hsec
  obtain ⟨suffix, hsuf⟩ := hsuf
  have h0 : ¬ ssr.events.length = 0 := by
    simpa [List.length_eq_zero] using hne
  constructor
  · show (TakeDeltaSnapshotCore sha256 ssr env).payload = _
    unfold TakeDeltaSnapshotCore
    simp only [h0, if_false]
    rcases hh : hasSnapStoreSecretUpdated { ssr with events := ssr.events ++ [93] }
        env.newSecretModifiedTime with e | ⟨b, ssr2⟩
    · exfalso
      unfold hasSnapStoreSecretUpdated at hh
      rw [hsec] at hh
      dsimp only at hh
      split at hh <;> simp at hh
    · dsimp only
      obtain ⟨-, -, -, hev, -, -, -, -⟩ :=
        hasSnapStoreSecretUpdated_ok_fields _ _ _ _ hh
      rcases hg : (if b = true then env.getSnapstore else Except.ok ()) with e | u
      · exfalso
        cases b <;> simp [hstore] at hg
      · dsimp only
        rw [hsuf]
        dsimp only
        rcases hz : (if ssr2.compressionEnabled = true then
            env.compress (ssr2.events ++ sha256 ssr2.events)
          else Except.ok (ssr2.events ++ sha256 ssr2.events)) with e | toSave
        · dsimp only
          rw [hev]
        · dsimp only
          rcases hs : env.save toSave with e2 | u2 <;>
            (dsimp only; rw [hev])
  · simp [h32]

theorem wasMissed_eq_false_iff (s : StartupCtx) (pf : Snapshot) (timeWindow : Rat) :
    WasScheduledFullSnapshotMissed s pf timeWindow = false ↔
      s.getPrevScheduledSnapTime s.nextSnapSchedule timeWindow = pf.createdOn := by
  unfold WasScheduledFullSnapshotMissed
  split_ifs with h <;> simp [h]

/-! ### C7 -/

/-- C7: `IsFullSnapshotRequiredAtStartup` returns true iff one of: no
previous Full snapshot; the previous Full is marked Final; the time
since its creation exceeds `timeWindow` hours; the
previous-full-succeeded flag is false; or the previous scheduled slot
was missed (per `GetPrevScheduledSnapTime`) and the time left until
the next slot plus the time already elapsed exceeds `timeWindow`. -/
theorem full_snapshot_required_at_startup_iff (s : StartupCtx) (timeWindow : Rat) :
    IsFullSnapshotRequiredAtStartup s timeWindow = true ↔
      (s.PrevFullSnapshot = none ∨
       ∃ pf, s.PrevFullSnapshot = some pf ∧
         (pf.isFinal = true ∨
          s.now - pf.createdOn > timeWindow ∨
          s.PrevFullSnapshotSucceeded = false ∨
          (s.getPrevScheduledSnapTime s.nextSnapSchedule timeWindow ≠ pf.createdOn ∧
           (s.nextSnapSchedule - s.now) + (s.now - pf.createdOn) > timeWindow))) := by
  cases hp : s.PrevFullSnapshot with
  | none => simp [IsFullSnapshotRequiredAtStartup, hp]
  | some pf =>
    simp only [IsFullSnapshotRequiredAtStartup, hp, Option.some.injEq, reduceCtorEq,
      false_or]
    constructor
    · intro h
      refine ⟨pf, rfl, ?_⟩
      split_ifs at h with c1 c2
      · tauto
      · rw [wasMissed_eq_false_iff] at c2
        simp only [IsNextFullSnapshotBeyondTimeWindow, decide_eq_true_eq] at h
        tauto
    · rintro ⟨pf', hpf', hdisj⟩
      subst hpf'
      split_ifs with c1 c2
      · rfl
      · exfalso
        rw [wasMissed_eq_false_iff] at c2
        tauto
      · simp only [IsNextFullSnapshotBeyondTimeWindow, decide_eq_true_eq]
        rw [wasMissed_eq_false_iff] at c2
        tauto

/-! ### C8 -/

/-- C8 (amended): for every schedule string, the time window returned
by `GetFullSnapshotMaxTimeWindow` is 24 for fewer than five fields;
24 × 7 = 168 when the day-of-week field is restricted; the float
parsed from the hours field after its FIRST slash when day-of-month
and day-of-week are both `"*"` and the hours field contains a slash;
and the default 24 in every other case (including when that float
does not parse). -/
theorem full_snapshot_time_window_characterization (spec : String) :
    ((fields spec).length < 5 → GetFullSnapshotMaxTimeWindow spec = 24) ∧
    (5 ≤ (fields spec).length → (fields spec).getD dayOfWeekField "" ≠ "*" →
      GetFullSnapshotMaxTimeWindow spec = 168) ∧
    (5 ≤ (fields spec).length → (fields spec).getD dayOfWeekField "" = "*" →
      (fields spec).getD dayOfMonthField "" = "*" →
      containsSlash ((fields spec).getD hourField "") = true →
      ∀ N, parseFloat (afterFirstSlash ((fields spec).getD hourField "")) = some N →
        GetFullSnapshotMaxTimeWindow spec = N) ∧
    (5 ≤ (fields spec).length → (fields spec).getD dayOfWeekField "" = "*" →
      ((fields spec).getD dayOfMonthField "" ≠ "*" ∨
       containsSlash ((fields spec).getD hourField "") = false ∨
       parseFloat (afterFirstSlash ((fields spec).getD hourField "")) = none) →
      GetFullSnapshotMaxTimeWindow spec = 24) := by
  refine ⟨?_, ?_, ?_, ?_⟩
  · intro h
    simp [GetFullSnapshotMaxTimeWindow, h, defaultFullSnapMaxTimeWindow]
  · intro h5 hdw
    unfold GetFullSnapshotMaxTimeWindow
    rw [if_neg (by omega), if_pos hdw]
    norm_num [defaultFullSnapMaxTimeWindow]
  · intro h5 hdw hdm hsl N hN
    unfold GetFullSnapshotMaxTimeWindow
    rw [if_neg (by omega), if_neg (not_ne_iff.mpr hdw), if_pos ⟨hdm, hdw, hsl⟩, hN]
  · intro h5 hdw hbad
    unfold GetFullSnapshotMaxTimeWindow
    rw [if_neg (by omega), if_neg (not_ne_iff.mpr hdw)]
    rcases hbad with hdm | hsl | hpn
    · rw [if_neg (by tauto)]
      rfl
    · have hns : ¬((fields spec).getD dayOfMonthField "" = "*" ∧
          (fields spec).getD dayOfWeekField "" = "*" ∧
          containsSlash ((fields spec).getD hourField "") = true) := by
        intro hc
        rw [hc.2.2] at hsl
        exact Bool.noConfusion hsl
      rw [if_neg hns]
      rfl
    · by_cases hc : ((fields spec).getD dayOfMonthField "" = "*" ∧
          (fields spec).getD dayOfWeekField "" = "*" ∧
          containsSlash ((fields spec).getD hourField "") = true)
      · rw [if_pos hc, hpn]
        rfl
      · rw [if_neg hc]
        rfl

/-- Witness for the amended C8, one concrete schedule per case: fewer
than five fields; restricted day-of-week; an hours step `*/6`; and an
unrestricted schedule without a step. -/
theorem full_snapshot_time_window_characterization_witness :
    GetFullSnapshotMaxTimeWindow "0 0 * *" = 24 ∧
    GetFullSnapshotMaxTimeWindow "0 0 * * 1" = 168 ∧
    GetFullSnapshotMaxTimeWindow "0 */6 * * *" = 6 ∧
    GetFullSnapshotMaxTimeWindow "0 4 * * *" = 24 :=
  ⟨(full_snapshot_time_window_characterization "0 0 * *").1 (by decide),
   (full_snapshot_time_window_characterization "0 0 * * 1").2.1 (by decide) (by decide),
   (full_snapshot_time_window_characterization "0 */6 * * *").2.2.1 (by decide)
     (by decide) (by decide) (by decide) 6 (by decide),
   (full_snapshot_time_window_characterization "0 4 * * *").2.2.2 (by decide)
     (by decide) (Or.inr (Or.inl (by decide)))⟩

/-- Counterexample for C8 as stated: on the five-field schedule
"0 1/2/3 * * *" with wildcard day-of-month and day-of-week and a
slash in the hours field, the float after the LAST slash is 3, yet
the code returns the default 24 (it parses after the first slash,
where "2/3" is not a float). -/
theorem full_snapshot_time_window_counterexample :
    GetFullSnapshotMaxTimeWindow "0 1/2/3 * * *" = 24 ∧
    (fields "0 1/2/3 * * *").length = 5 ∧
    (fields "0 1/2/3 * * *").getD dayOfMonthField "" = "*" ∧
    (fields "0 1/2/3 * * *").getD dayOfWeekField "" = "*" ∧
    containsSlash ((fields "0 1/2/3 * * *").getD hourField "") = true ∧
    parseFloat (afterLastSlash ((fields "0 1/2/3 * * *").getD hourField "")) = some 3 ∧
    (24 : Rat) ≠ 3 := by
  decide

theorem applyWatch_fields (ssr : Snapshotter) (saved : List Snapshot) (env : FullEnv) :
    (applyWatchAfterFullSnapshot ssr saved env).saved = saved ∧
    (applyWatchAfterFullSnapshot ssr saved env).ssr.PrevSnapshot = ssr.PrevSnapshot ∧
    (applyWatchAfterFullSnapshot ssr saved env).ssr.PrevFullSnapshot = ssr.PrevFullSnapshot ∧
    (applyWatchAfterFullSnapshot ssr saved env).ssr.PrevDeltaSnapshots = ssr.PrevDeltaSnapshots := by
  unfold applyWatchAfterFullSnapshot
  split_ifs with h
  · exact ⟨rfl, rfl, rfl, rfl⟩
  · rcases hw : env.newWatcher with e | u <;> exact ⟨rfl, rfl, rfl, rfl⟩

theorem takeFullSnapshot_skip_fields
    (ssr : Snapshotter) (env : FullEnv) (t : Rat) (R : Int)
    (hsec : env.newSecretModifiedTime = .ok t)
    (hstore : env.getSnapstore = .ok ())
    (hkv : env.newKV = .ok ())
    (hrev : env.revision = .ok R)
    (hfin : ssr.PrevSnapshot.isFinal = true)
    (hkind : ssr.PrevSnapshot.kind = SnapshotKindFull)
    (hlast : ssr.PrevSnapshot.lastRevision = R) :
    (takeFullSnapshot true ssr env).saved = [] ∧
    (takeFullSnapshot true ssr env).ssr.PrevSnapshot = ssr.PrevSnapshot ∧
    (takeFullSnapshot true ssr env).ssr.PrevFullSnapshot = ssr.PrevFullSnapshot ∧
    (takeFullSnapshot true ssr env).ssr.PrevDeltaSnapshots = ssr.PrevDeltaSnapshots := by
  by_cases ht : t > ssr.lastSecretModifiedTime <;>
    by_cases hp : ssr.deltaSnapshotPeriodNanos < oneSecondNanos <;>
      rcases hw : env.newWatcher with e | u <;>
        simp [takeFullSnapshot, takeFullSnapshotCore, hasSnapStoreSecretUpdated,
          applyWatchAfterFullSnapshot, cleanupInMemoryEvents, hsec, hstore, hkv, hrev,
          ht, hp, hw, hfin, hkind, hlast]

theorem takeFullSnapshot_success_fields
    (ssr : Snapshotter) (env : FullEnv) (t : Rat) (R0 : Int) (cs : String)
    (snap1 : Snapshot)
    (hsec : env.newSecretModifiedTime = .ok t)
    (hstore : env.getSnapstore = .ok ())
    (hkv : env.newKV = .ok ())
    (hrev : env.revision = .ok R0)
    (hnotfin : ssr.PrevSnapshot.isFinal = false)
    (hsuf : env.compressionSuffix = .ok cs)
    (hmaint : env.newMaintenance = .ok ())
    (hts : env.takeAndSave R0 true = .ok snap1) :
    (takeFullSnapshot true ssr env).saved = [snap1] ∧
    (takeFullSnapshot true ssr env).ssr.PrevSnapshot = snap1 := by
  by_cases ht : t > ssr.lastSecretModifiedTime <;>
    by_cases hp : ssr.deltaSnapshotPeriodNanos < oneSecondNanos <;>
      rcases hw : env.newWatcher with e | u <;>
        simp [takeFullSnapshot, takeFullSnapshotCore, hasSnapStoreSecretUpdated,
          applyWatchAfterFullSnapshot, cleanupInMemoryEvents, hsec, hstore, hkv, hrev,
          ht, hp, hw, hnotfin, hsuf, hmaint, hts]

/-! ### C3 -/

/-- C3: `takeFullSnapshot` with `isFinal = true` is idempotent at an
unchanged revision.  First part: when the previous snapshot is a Final
Full whose `LastRevision` equals the KV's current latest revision, no
snapshot object is saved and `PrevSnapshot`, `PrevFullSnapshot` and
`PrevDeltaSnapshots` are unchanged.  Second part: two consecutive
final-full calls against an idle KV (the second call reads the first
snapshot's revision back) save exactly one Final Full snapshot in
total. -/
theorem final_full_snapshot_idempotent :
    (∀ (ssr : Snapshotter) (env : FullEnv) (t : Rat) (R : Int),
      env.newSecretModifiedTime = .ok t →
      env.getSnapstore = .ok () →
      env.newKV = .ok () →
      env.revision = .ok R →
      ssr.PrevSnapshot.isFinal = true →
      ssr.PrevSnapshot.kind = SnapshotKindFull →
      ssr.PrevSnapshot.lastRevision = R →
      (takeFullSnapshot true ssr env).saved = [] ∧
      (takeFullSnapshot true ssr env).ssr.PrevSnapshot = ssr.PrevSnapshot ∧
      (takeFullSnapshot true ssr env).ssr.PrevFullSnapshot = ssr.PrevFullSnapshot ∧
      (takeFullSnapshot true ssr env).ssr.PrevDeltaSnapshots = ssr.PrevDeltaSnapshots) ∧
    (∀ (ssr : Snapshotter) (env1 env2 : FullEnv) (t1 t2 : Rat) (R0 : Int)
        (cs : String) (snap1 : Snapshot),
      env1.newSecretModifiedTime = .ok t1 →
      env1.getSnapstore = .ok () →
      env1.newKV = .ok () →
      env1.revision = .ok R0 →
      ssr.PrevSnapshot.isFinal = false →
      env1.compressionSuffix = .ok cs →
      env1.newMaintenance = .ok () →
      env1.takeAndSave R0 true = .ok snap1 →
      snap1.isFinal = true →
      snap1.kind = SnapshotKindFull →
      env2.newSecretModifiedTime = .ok t2 →
      env2.getSnapstore = .ok () →
      env2.newKV = .ok () →
      env2.revision = .ok snap1.lastRevision →
      (takeFullSnapshot true ssr env1).saved ++
        (takeFullSnapshot true (takeFullSnapshot true ssr env1).ssr env2).saved = [snap1]) := by
  constructor
  · intro ssr env t R hsec hstore hkv hrev hfin hkind hlast
    exact takeFullSnapshot_skip_fields ssr env t R hsec hstore hkv hrev hfin hkind hlast
  · intro ssr env1 env2 t1 t2 R0 cs snap1 hsec1 hstore1 hkv1 hrev1 hnotfin hsuf1
      hmaint1 hts1 hfin1 hkind1 hsec2 hstore2 hkv2 hrev2
    obtain ⟨hsaved1, hprev1⟩ :=
      takeFullSnapshot_success_fields ssr env1 t1 R0 cs snap1 hsec1 hstore1 hkv1
        hrev1 hnotfin hsuf1 hmaint1 hts1
    obtain ⟨hsaved2, -, -, -⟩ :=
      takeFullSnapshot_skip_fields (takeFullSnapshot true ssr env1).ssr env2 t2
        snap1.lastRevision hsec2 hstore2 hkv2 hrev2
        (by rw [hprev1]; exact hfin1)
        (by rw [hprev1]; exact hkind1)
        (by rw [hprev1])
    rw [hsaved1, hsaved2]
    rfl

/-- A full-snapshot environment in which every external call succeeds:
the KV reports revision 9 and `TakeAndSaveFullSnapshot` produces the
corresponding full snapshot descriptor. -/
def sampleFullEnv : FullEnv :=
  { newSecretModifiedTime := .ok 0, getSnapstore := .ok (), newKV := .ok (),
    revision := .ok 9, compressionSuffix := .ok "", newMaintenance := .ok (),
    takeAndSave := fun r f =>
      .ok { kind := SnapshotKindFull, startRevision := 0, lastRevision := r,
            createdOn := 0, isFinal := f, compressionSuffix := "" },
    newWatcher := .ok (), nextSchedule := some 1 }

/-- The Final Full snapshot `sampleFullEnv.takeAndSave 9 true` yields. -/
def sampleFinalSnapshot : Snapshot :=
  { kind := SnapshotKindFull, startRevision := 0, lastRevision := 9,
    createdOn := 0, isFinal := true, compressionSuffix := "" }

/-- Witness for C3: concrete double final-full trigger against an idle
KV at revision 9 writes exactly the one snapshot of the first call. -/
theorem final_full_snapshot_idempotent_witness :
    (takeFullSnapshot true sampleSnapshotter sampleFullEnv).saved ++
      (takeFullSnapshot true (takeFullSnapshot true sampleSnapshotter sampleFullEnv).ssr
        sampleFullEnv).saved = [sampleFinalSnapshot] :=
  final_full_snapshot_idempotent.2 sampleSnapshotter sampleFullEnv sampleFullEnv 0 0 9
    "" sampleFinalSnapshot rfl rfl rfl rfl rfl rfl rfl rfl rfl rfl rfl rfl rfl rfl

/-- A snapshotter state with a non-empty event buffer (one marshalled
event, last revision 6), used by witness instantiations. -/
def bufferedSnapshotter : Snapshotter :=
  { sampleSnapshotter with events := [65], lastEventRevision := 6 }

/-- Witness for C2 at the one-byte buffer `[65]` with the constant
32-byte digest function. -/
theorem delta_payload_sha256_witness :
    (TakeDeltaSnapshot sampleSha256 bufferedSnapshotter sampleDeltaEnv).payload =
      some ((bufferedSnapshotter.events ++ [93]) ++
        sampleSha256 (bufferedSnapshotter.events ++ [93])) ∧
    ((bufferedSnapshotter.events ++ [93]) ++
        sampleSha256 (bufferedSnapshotter.events ++ [93])).length =
      bufferedSnapshotter.events.length + 1 + 32 :=
  delta_payload_sha256 sampleSha256 bufferedSnapshotter sampleDeltaEnv (by decide)
    ⟨0, rfl⟩ rfl ⟨"", rfl⟩ (fun b => by simp [sampleSha256])

/-! ### C4 -/

/-- C4 (amended): when a triggered full or delta snapshot fails — with
any error, transient errors included — the snapshot event handler
sends the (nil snapshot, error) result on the corresponding
acknowledgement channel and then exits its loop returning that error,
serving none of the pending messages; it does not continue for
transient errors. -/
theorem event_handler_acks_and_exits_on_error
    (sha256 : List Nat → List Nat) (rest : List HandlerMsg) :
    (∀ (ssr : Snapshotter) (isFinal : Bool) (env : FullEnv) (e : SnapErr),
      (TakeFullSnapshotAndResetTimer isFinal ssr env).err = some e →
      snapshotEventHandler sha256 ssr (.fullReq isFinal env :: rest) =
        { acks := [((TakeFullSnapshotAndResetTimer isFinal ssr env).snap, some e)],
          err := some e,
          ssr := { (TakeFullSnapshotAndResetTimer isFinal ssr env).ssr with
                   PrevFullSnapshotSucceeded := false } }) ∧
    (∀ (ssr : Snapshotter) (env : DeltaEnv) (e : SnapErr),
      (takeDeltaSnapshotAndResetTimer sha256 ssr env).err = some e →
      snapshotEventHandler sha256 ssr (.deltaReq env :: rest) =
        { acks := [((takeDeltaSnapshotAndResetTimer sha256 ssr env).snap, some e)],
          err := some e,
          ssr := (takeDeltaSnapshotAndResetTimer sha256 ssr env).ssr }) := by
  constructor
  · intro ssr isFinal env e h
    simp only [snapshotEventHandler]
    rw [h]
  · intro ssr env e h
    simp only [snapshotEventHandler]
    rw [h]

/-- A full-snapshot environment whose store upload fails with a
transient (non-Configuration, non-fatal-KV) error. -/
def transientFullEnv : FullEnv :=
  { sampleFullEnv with takeAndSave := fun _ _ => .error (.other "transient store failure") }

/-- A delta environment whose `SnapStore.Save` fails transiently. -/
def transientDeltaEnv : DeltaEnv :=
  { sampleDeltaEnv with save := fun _ => .error "transient save failure" }

/-- Counterexample for C4 as stated: a triggered full snapshot fails
with a transient store error; the handler acknowledges the error but
then EXITS the loop (returning the error) instead of continuing, so a
second pending trigger is never served: only one acknowledgement is
ever sent. -/
theorem event_handler_counterexample :
    (snapshotEventHandler sampleSha256 sampleSnapshotter
        [.fullReq false transientFullEnv, .fullReq false sampleFullEnv]).acks.length = 1 ∧
    (snapshotEventHandler sampleSha256 sampleSnapshotter
        [.fullReq false transientFullEnv, .fullReq false sampleFullEnv]).err =
      some (.other "transient store failure") := by
  constructor <;> rfl

/-- Witness for the amended C4 at concrete failing environments. -/
theorem event_handler_acks_and_exits_on_error_witness :
    snapshotEventHandler sampleSha256 sampleSnapshotter [.fullReq false transientFullEnv] =
      { acks := [((TakeFullSnapshotAndResetTimer false sampleSnapshotter transientFullEnv).snap,
                  some (.other "transient store failure"))],
        err := some (.other "transient store failure"),
        ssr := { (TakeFullSnapshotAndResetTimer false sampleSnapshotter transientFullEnv).ssr with
                 PrevFullSnapshotSucceeded := false } } ∧
    snapshotEventHandler sampleSha256 bufferedSnapshotter [.deltaReq transientDeltaEnv] =
      { acks := [((takeDeltaSnapshotAndResetTimer sampleSha256 bufferedSnapshotter
                    transientDeltaEnv).snap,
                  some (.other "transient save failure"))],
        err := some (.other "transient save failure"),
        ssr := (takeDeltaSnapshotAndResetTimer sampleSha256 bufferedSnapshotter
                  transientDeltaEnv).ssr } :=
  ⟨(event_handler_acks_and_exits_on_error sampleSha256 []).1 sampleSnapshotter false
      transientFullEnv (.other "transient store failure") rfl,
   (event_handler_acks_and_exits_on_error sampleSha256 []).2 bufferedSnapshotter
      transientDeltaEnv (.other "transient save failure") rfl⟩

/-- Whether an initialization result is a returned error. -/
def InitResult.isErr : InitResult → Bool
  | .err _ => true
  | _ => false

/-! ### C5 -/

/-- A restoration environment over an empty snapstore (a provider is
configured, the store lists no snapshots) where every call succeeds. -/
def emptySnapstoreRestoreEnv : RestoreEnv :=
  { snapstoreConfigNil := false, providerEmpty := false, getSnapstore := .ok (),
    getLatest := .ok (none, []), removePartDir := .ok (), removeDataDir := .ok (),
    newRestorer := .ok (), restoreAndStopEtcd := .ok 3 }

/-- A single-node initialization environment whose validator reports
status Unknown over an empty snapstore. -/
def unknownStatusInitEnv : InitEnv :=
  { isMultiNode := false, k8sClientSet := .ok (), wasMemberInCluster := false,
    isClusterScaledUp := .ok false, addLearner := .ok (), removeMember := .ok (),
    addMemberAsLearner := .ok (), validateStatus := .DataDirectoryStatusUnknown,
    originalClusterSize := 1, restoreEnv := emptySnapstoreRestoreEnv,
    tempDir := "/tmp", removeTempDir := .ok (), mkdirTempDir := .ok () }

/-- The same environment with validator status Corrupt. -/
def corruptStatusInitEnv : InitEnv :=
  { unknownStatusInitEnv with validateStatus := .DataDirectoryCorrupt }

/-- A file system whose data directory is present (content 7) and
whose `.part` directory is absent. -/
def sampleFs : FileSystem := { dataDir := some 7, partDir := none }

/-- Counterexample for C5 as stated: with validator status Unknown and
an empty snapstore, single-node `Initialize` returns an error and
leaves the data directory in place — it does NOT wipe the directory
and bootstrap fresh the way it does for status Corrupt. -/
theorem init_unknown_counterexample :
    Initialize unknownStatusInitEnv sampleFs =
      (.err "error while initializing", sampleFs) ∧
    sampleFs.dataDir = some 7 ∧
    Initialize corruptStatusInitEnv sampleFs =
      (.ok, { dataDir := none, partDir := none }) := by
  refine ⟨rfl, rfl, rfl⟩

/-- C5 (amended): in single-node initialization the four validator
statuses WrongVolumeMounted, FailToOpenBoltDBError,
DataDirectoryStatusUnknown and FailBelowRevisionConsistencyError all
make `Initialize` return an error without touching the file system;
the wipe-and-bootstrap-fresh path on an empty snapstore applies to
status Corrupt (not Unknown), which succeeds and removes the data
directory. -/
theorem init_status_policy :
    (∀ (env : InitEnv) (fs : FileSystem),
      env.isMultiNode = false →
      (env.validateStatus = DataDirStatus.WrongVolumeMounted ∨
       env.validateStatus = DataDirStatus.FailToOpenBoltDBError ∨
       env.validateStatus = DataDirStatus.DataDirectoryStatusUnknown ∨
       env.validateStatus = DataDirStatus.FailBelowRevisionConsistencyError) →
      (Initialize env fs).1.isErr = true ∧ (Initialize env fs).2 = fs) ∧
    (∀ (env : InitEnv) (fs : FileSystem) (d : Nat),
      env.isMultiNode = false →
      env.validateStatus = DataDirStatus.DataDirectoryCorrupt →
      env.originalClusterSize ≤ 1 →
      env.restoreEnv.snapstoreConfigNil = false →
      env.restoreEnv.providerEmpty = false →
      env.restoreEnv.getSnapstore = .ok () →
      env.restoreEnv.getLatest = .ok (none, []) →
      env.restoreEnv.removeDataDir = .ok () →
      fs.dataDir = some d →
      env.removeTempDir = .ok () →
      env.mkdirTempDir = .ok () →
      Initialize env fs = (.ok, { fs with dataDir := none })) := by
  constructor
  · intro env fs hm hst
    simp only [Initialize, hm, Bool.false_eq_true, if_false]
    rcases hst with h | h | h | h <;>
      simp [initValidatePhase, h, InitResult.isErr]
  · intro env fs d hm hst hsize hnil hprov hget hlatest hrm hfs hrt hmk
    simp only [Initialize, hm, Bool.false_eq_true, if_false]
    have hnsize : ¬ (1 < env.originalClusterSize) := by omega
    simp only [initValidatePhase, hst]
    rw [if_pos (by simp), if_neg (by simp [hnsize])]
    have hrcd : restoreCorruptData env.restoreEnv fs =
        { restored := true, err := none, fs := { fs with dataDir := none } } := by
      simp [restoreCorruptData, restoreWithEmptySnapstore, hnil, hprov, hget, hlatest,
        hrm, hfs]
    rw [hrcd]
    simp only [cleanupTempDirPhase, hnil, Bool.false_eq_true, if_false]
    split_ifs with htmp
    · rw [hrt]
      simp only []
      rw [hmk]
    · rw [hmk]

/-- Witness for the amended C5 at the concrete Unknown and Corrupt
environments. -/
theorem init_status_policy_witness :
    ((Initialize unknownStatusInitEnv sampleFs).1.isErr = true ∧
     (Initialize unknownStatusInitEnv sampleFs).2 = sampleFs) ∧
    Initialize corruptStatusInitEnv sampleFs = (.ok, { sampleFs with dataDir := none }) :=
  ⟨init_status_policy.1 unknownStatusInitEnv sampleFs rfl
      (Or.inr (Or.inr (Or.inl rfl))),
   init_status_policy.2 corruptStatusInitEnv sampleFs 7 rfl rfl (by decide)
      rfl rfl rfl rfl rfl rfl rfl rfl⟩

/-! ### C6 -/

/-- C6: restoration is atomic with respect to the original data
directory.  With a configured provider and a non-empty snapstore:
if `RestoreAndStopEtcd` (the restore of base + deltas into the
`.part` directory) fails, `restoreCorruptData` returns an error,
reports no restoration, and the data directory is neither removed nor
renamed; conversely the data directory changes only after the restore
into `.part` succeeded. -/
theorem restore_atomic_wrt_data_dir :
    (∀ (env : RestoreEnv) (fs : FileSystem) (base : Snapshot)
        (deltas : List Snapshot) (e : String),
      env.snapstoreConfigNil = false →
      env.providerEmpty = false →
      env.getLatest = .ok (some base, deltas) →
      env.restoreAndStopEtcd = .error e →
      (restoreCorruptData env fs).err.isSome = true ∧
      (restoreCorruptData env fs).restored = false ∧
      (restoreCorruptData env fs).fs.dataDir = fs.dataDir) ∧
    (∀ (env : RestoreEnv) (fs : FileSystem) (base : Snapshot)
        (deltas : List Snapshot),
      env.snapstoreConfigNil = false →
      env.providerEmpty = false →
      env.getLatest = .ok (some base, deltas) →
      (restoreCorruptData env fs).fs.dataDir ≠ fs.dataDir →
      (env.restoreAndStopEtcd.toOption).isSome = true) := by
  constructor
  · intro env fs base deltas e hnil hprov hlatest hfail
    simp only [restoreCorruptData, hnil, hprov, hlatest, Bool.false_eq_true, or_self,
      if_false]
    rcases hgs : env.getSnapstore with eg | u
    · exact ⟨rfl, rfl, rfl⟩
    · simp only []
      rw [if_neg (by simp)]
      rcases hrp : env.removePartDir with ep | up
      · exact ⟨rfl, rfl, rfl⟩
      · simp only []
        rcases hnr : env.newRestorer with en | un
        · exact ⟨rfl, rfl, rfl⟩
        · simp only []
          rw [hfail]
          exact ⟨rfl, rfl, rfl⟩
  · intro env fs base deltas hnil hprov hlatest hchanged
    rcases hr : env.restoreAndStopEtcd with e | c
    · exfalso
      apply hchanged
      simp only [restoreCorruptData, hnil, hprov, hlatest, Bool.false_eq_true, or_self,
        if_false]
      rcases hgs : env.getSnapstore with eg | u
      · rfl
      · simp only []
        rw [if_neg (by simp)]
        rcases hrp : env.removePartDir with ep | up
        · rfl
        · simp only []
          rcases hnr : env.newRestorer with en | un
          · rfl
          · simp only []
            rw [hr]
    · simp [hr, Except.toOption]

/-- A restoration environment over a non-empty snapstore whose
base-plus-deltas replay fails with an integrity error. -/
def failingRestoreEnv : RestoreEnv :=
  { emptySnapstoreRestoreEnv with
    getLatest := .ok (some sampleFinalSnapshot, []),
    restoreAndStopEtcd := .error "sha256 mismatch" }

/-- The same environment with a succeeding replay producing content 9. -/
def okRestoreEnv : RestoreEnv :=
  { failingRestoreEnv with restoreAndStopEtcd := .ok 9 }

/-- Witness for C6 at a concrete failing and a concrete succeeding
restoration. -/
theorem restore_atomic_wrt_data_dir_witness :
    ((restoreCorruptData failingRestoreEnv sampleFs).err.isSome = true ∧
     (restoreCorruptData failingRestoreEnv sampleFs).restored = false ∧
     (restoreCorruptData failingRestoreEnv sampleFs).fs.dataDir = sampleFs.dataDir) ∧
    (okRestoreEnv.restoreAndStopEtcd.toOption).isSome = true :=
  ⟨restore_atomic_wrt_data_dir.1 failingRestoreEnv sampleFs sampleFinalSnapshot []
      "sha256 mismatch" rfl rfl rfl rfl,
   restore_atomic_wrt_data_dir.2 okRestoreEnv sampleFs sampleFinalSnapshot []
      rfl rfl rfl (by decide)⟩

/-! ### C10 -/

/-- C10: after every invocation of `takeFullSnapshot` or
`TakeDeltaSnapshot` — success, skip or failure — the in-memory event
buffer is empty and `lastEventRevision` is -1, because both run
`cleanupInMemoryEvents` as a deferred call on every return path; in
particular events buffered before a failed delta upload are
discarded. -/
theorem inMemoryEvents_cleared_after_snapshot_ops
    (sha256 : List Nat → List Nat) (ssr : Snapshotter) (isFinal : Bool)
    (fenv : FullEnv) (denv : DeltaEnv) :
    ((takeFullSnapshot isFinal ssr fenv).ssr.events = [] ∧
     (takeFullSnapshot isFinal ssr fenv).ssr.lastEventRevision = -1) ∧
    ((TakeDeltaSnapshot sha256 ssr denv).ssr.events = [] ∧
     (TakeDeltaSnapshot sha256 ssr denv).ssr.lastEventRevision = -1) :=
  ⟨⟨rfl, rfl⟩, ⟨rfl, rfl⟩⟩

/-! ### C9 -/

/-- C9: `TriggerFullSnapshot` and `TriggerDeltaSnapshot` called while
the snapshotter is not Active return a nil snapshot together with the
"snapshotter is not active" error and send nothing on the request
channels; and `TriggerDeltaSnapshot` returns an error without sending
a request whenever the configured delta period is below the 1-second
threshold. -/
theorem trigger_rejected_when_inactive (ssr : Snapshotter) (isFinal : Bool)
    (ackF ackD : Option Snapshot × Option String) :
    (ssr.SsrState ≠ SnapshotterState.Active →
      TriggerFullSnapshot ssr isFinal ackF =
        { snapshot := none, err := some "snapshotter is not active", sentRequests := 0 } ∧
      TriggerDeltaSnapshot ssr ackD =
        { snapshot := none, err := some "snapshotter is not active", sentRequests := 0 }) ∧
    (ssr.deltaSnapshotPeriodNanos < DeltaSnapshotIntervalThreshold →
      (TriggerDeltaSnapshot ssr ackD).snapshot = none ∧
      (TriggerDeltaSnapshot ssr ackD).err.isSome = true ∧
      (TriggerDeltaSnapshot ssr ackD).sentRequests = 0) := by
  constructor
  · intro h
    constructor <;> simp [TriggerFullSnapshot, TriggerDeltaSnapshot, h]
  · intro h
    by_cases hs : ssr.SsrState = SnapshotterState.Active <;>
      simp [TriggerDeltaSnapshot, hs, h]

/-- Witness for C9 at a concrete inactive snapshotter whose delta
period is below the threshold. -/
theorem trigger_rejected_when_inactive_witness :
    (TriggerFullSnapshot sampleSnapshotter true (none, none) =
      { snapshot := none, err := some "snapshotter is not active", sentRequests := 0 } ∧
     TriggerDeltaSnapshot sampleSnapshotter (none, none) =
      { snapshot := none, err := some "snapshotter is not active", sentRequests := 0 }) ∧
    ((TriggerDeltaSnapshot sampleSnapshotter (none, none)).snapshot = none ∧
     (TriggerDeltaSnapshot sampleSnapshotter (none, none)).err.isSome = true ∧
     (TriggerDeltaSnapshot sampleSnapshotter (none, none)).sentRequests = 0) :=
  ⟨(trigger_rejected_when_inactive sampleSnapshotter true (none, none) (none, none)).1
     (by decide),
   (trigger_rejected_when_inactive sampleSnapshotter true (none, none) (none, none)).2
     (by decide)⟩

end EtcdBackupRestore
